import Mathlib

/-!
Shallow embedding of the ParallelLauncher repository and proofs about it.

The repository has two components: SignalHandler
(src/includes/SignalHandler.hpp together with src/src/SignalHandler.cpp) and
ThreadManager (src/includes/ThreadManager.hpp).  The definitions below are
translated directly from that source.

Machine integers: the three signal category words are C++ uint32_t values,
modelled as Nat kept below 2 ^ 32 (every operation on them either clears bits
or ORs in a bitmask below 2 ^ 32, so no explicit truncation is needed there);
ThreadManager's thread_counter_ is a uint32_t whose fetch_add / fetch_sub
wrap, modelled with explicit % 2 ^ 32.
-/

/-- Signal count of the reference platform (glibc Linux): legal signal numbers
are 1 .. 64 and NSIG = 65. -/
def NSIG : Int := 65

/-- Largest uint32_t value, used to model the bitwise complement `~mask`
inside a 32-bit word as `U32MAX ^^^ mask`. -/
def U32MAX : Nat := 2 ^ 32 - 1

/-- Modulus for uint32_t wrap-around arithmetic. -/
def U32 : Nat := 2 ^ 32

/-- Embedding of the free function signal_bitmask (SignalHandler.hpp, lines
63-79): the uint32 bitmask of the given signal, shifted according to its
category (OS below 32, RT below 64, reserved above), and 0 when the signal
number is illegal (signo <= 0 or signo >= NSIG). -/
def signal_bitmask (signo : Int) : Nat :=
  if signo ≤ 0 ∨ NSIG ≤ signo then 0
  else if signo < 32 then 2 ^ (signo - 1).toNat
  else if signo < 64 then 2 ^ (signo - 32).toNat
  else 2 ^ (signo - 64).toNat

/-- Embedding of struct SignalMask_t (SignalHandler.hpp, lines 83-91): the
out-parameter type of the test-all / pop-all queries. -/
structure SignalMask_t where
  OS_sigs : Nat
  RT_sigs : Nat
  reserved : Nat
deriving DecidableEq, Repr

namespace SignalHandler

/-- The static array sig_flags_ of three atomic uint32 category words
(SignalHandler.hpp, line 282), one field per SIG_FLAGS_ENM index. -/
structure SigFlags where
  OS_sigs : Nat
  RT_sigs : Nat
  reserved : Nat
deriving DecidableEq, Repr

/-- Embedding of SignalHandler::test_signal (SignalHandler.hpp, lines
146-166): false for an illegal signal number, otherwise whether the signal's
bit is set in its category word (the C++ returns the uint32 value of
`word & signal_bitmask(sig)` converted to bool). -/
def test_signal (w : SigFlags) (sig : Int) : Bool :=
  if sig ≤ 0 ∨ NSIG ≤ sig then false
  else if 32 ≤ sig ∧ sig < 64 then decide (w.RT_sigs &&& signal_bitmask sig ≠ 0)
  else if 64 ≤ sig then decide (w.reserved &&& signal_bitmask sig ≠ 0)
  else decide (w.OS_sigs &&& signal_bitmask sig ≠ 0)

/-- Embedding of SignalHandler::pop_signal (SignalHandler.hpp, lines 199-221):
false for an illegal signal number, otherwise performs
`fetch_and(~signal_bitmask(sig))` on the category word.  fetch_and returns the
PREVIOUS value of the whole word, and the C++ converts that uint32 to bool, so
the returned Bool is `previous word ≠ 0`, not `previous bit of sig ≠ 0`. -/
def pop_signal (w : SigFlags) (sig : Int) : SigFlags × Bool :=
  if sig ≤ 0 ∨ NSIG ≤ sig then (w, false)
  else if 32 ≤ sig ∧ sig < 64 then
    ({ w with RT_sigs := w.RT_sigs &&& (U32MAX ^^^ signal_bitmask sig) },
      decide (w.RT_sigs ≠ 0))
  else if 64 ≤ sig then
    ({ w with reserved := w.reserved &&& (U32MAX ^^^ signal_bitmask sig) },
      decide (w.reserved ≠ 0))
  else
    ({ w with OS_sigs := w.OS_sigs &&& (U32MAX ^^^ signal_bitmask sig) },
      decide (w.OS_sigs ≠ 0))

/-- Embedding of SignalHandler::test_all_signals (SignalHandler.hpp, lines
177-190): snapshots the three category words into the out-parameter and
returns whether any of the three words is nonzero. -/
def test_all_signals (w : SigFlags) : SignalMask_t × Bool :=
  (⟨w.OS_sigs, w.RT_sigs, w.reserved⟩,
    decide (w.OS_sigs ≠ 0) || decide (w.RT_sigs ≠ 0) || decide (w.reserved ≠ 0))

/-- Embedding of SignalHandler::pop_all_signals (SignalHandler.hpp, lines
232-240): first test_all_signals, then store 0 to each of the three words.
The result carries the post-state of the words, the filled out-parameter and
the returned Bool. -/
def pop_all_signals (w : SigFlags) : SigFlags × SignalMask_t × Bool :=
  let r := test_all_signals w
  (⟨0, 0, 0⟩, r.1, r.2)

/-- Embedding of SignalHandler::handler_callback (SignalHandler.cpp, lines
149-172): the signal-delivery handler ORs signal_bitmask(sig) into the
category word selected by the same range tests as the C++. -/
def handler_callback (w : SigFlags) (sig : Int) : SigFlags :=
  if sig < 32 then { w with OS_sigs := w.OS_sigs ||| signal_bitmask sig }
  else if sig < 64 then { w with RT_sigs := w.RT_sigs ||| signal_bitmask sig }
  else { w with reserved := w.reserved ||| signal_bitmask sig }

end SignalHandler

/-- Assoc-list lookup, used to model std::unordered_map lookup
(threads_.contains / threads_.at in ThreadManager, old_handlers_ in
SignalHandler). -/
def alookup {κ α : Type} [DecidableEq κ] : List (κ × α) → κ → Option α
  | [], _ => none
  | (k, v) :: rest, key => if k = key then some v else alookup rest key

/-- Assoc-list insert-or-replace, used to model std::unordered_map
operator[] assignment. -/
def ainsert {κ α : Type} [DecidableEq κ] : List (κ × α) → κ → α → List (κ × α)
  | [], key, v => [(key, v)]
  | (k, w) :: rest, key, v =>
      if k = key then (k, v) :: rest else (k, w) :: ainsert rest key v

namespace ThreadManager

/-- uint32_t fetch_add(1): increment with wrap-around. -/
def u32add1 (c : Nat) : Nat := (c + 1) % U32

/-- uint32_t fetch_sub(1): decrement with wrap-around, (c - 1) mod 2 ^ 32
computed as (2 ^ 32 - 1 + c) % 2 ^ 32 (the literal is kept on the left of the
addition so that definitional unfolding on an open c stays shallow). -/
def u32sub1 (c : Nat) : Nat := (U32 - 1 + c) % U32

/-- The per-thread registry record: the jthread's stop-token state (set by
ThreadManager::request_stop via the thread's stop source) and whether the
worker body has returned (the thread's terminal fetch_sub has run). -/
structure ThreadRec where
  stopRequested : Bool
  finished : Bool
deriving DecidableEq, Repr

/-- Observable state of one ThreadManager (ThreadManager.hpp, lines 196-200):
thread_counter_ (atomic uint32), the threads_ map keyed by thread id, and
global_stop_source_'s requested flag.  Thread ids are modelled as Nat. -/
structure TMState where
  thread_counter : Nat
  threads : List (Nat × ThreadRec)
  globalStop : Bool
deriving DecidableEq, Repr

/-- A default-constructed ThreadManager: counter 0, empty map, no global
stop requested. -/
def initTM : TMState := ⟨0, [], false⟩

/-- Embedding of ThreadManager::total_threads (ThreadManager.hpp, lines
185-188): threads_.size(). -/
def total_threads (st : TMState) : Nat := st.threads.length

/-- Embedding of ThreadManager::alive_threads (ThreadManager.hpp, lines
191-194): thread_counter_.load(). -/
def alive_threads (st : TMState) : Nat := st.thread_counter

/-- Embedding of ThreadManager::all_running (ThreadManager.hpp, lines
173-177): `thread_counter_ >= threads_.size() && threads_.size() != 0`
(note the source uses >=, not ==). -/
def all_running (st : TMState) : Bool :=
  decide (st.threads.length ≤ st.thread_counter) && decide (st.threads.length ≠ 0)

/-- Embedding of ThreadManager::any_running (ThreadManager.hpp, lines
179-182): `thread_counter_ > 0`. -/
def any_running (st : TMState) : Bool := decide (0 < st.thread_counter)

/-- Failure modes of one spawn_thread call, supplied as an oracle because the
underlying allocation / thread-creation failures are environmental:
`ok` - the jthread starts and is recorded;
`createFail` - the std::jthread constructor throws, so no thread ever runs;
`recordFail` - the jthread starts, then recording it in the map
(`threads_[tid] = std::move(thread)`) throws.  In that last case stack
unwinding destroys the local jthread, which joins it, so the worker body runs
to completion and performs its terminal fetch_sub before the catch block
performs its own fetch_sub. -/
inductive SpawnOutcome where
  | ok
  | createFail
  | recordFail
deriving DecidableEq, Repr

/-- Error outcomes of ThreadManager operations: std::invalid_argument from a
failed id lookup, and a propagated spawn failure. -/
inductive TMErr where
  | lookupErr
  | spawnErr
deriving DecidableEq, Repr

/-- Embedding of ThreadManager::spawn_thread (ThreadManager.hpp, lines
72-104) at the registry-state level.  The counter is incremented first; on
success the new thread is recorded under its id with a fresh (unrequested)
stop token and an unfinished body; on a creation failure the catch block
decrements the counter once; on a recording failure the started thread is
joined during unwinding (its body's terminal fetch_sub runs) and then the
catch block decrements again. -/
def spawn_thread (st : TMState) (tid : Nat) (outcome : SpawnOutcome) :
    TMState × Except TMErr Nat :=
  let c1 := u32add1 st.thread_counter
  match outcome with
  | .ok =>
      ({ st with thread_counter := c1,
                 threads := ainsert st.threads tid ⟨false, false⟩ }, .ok tid)
  | .createFail =>
      ({ st with thread_counter := u32sub1 c1 }, .error .spawnErr)
  | .recordFail =>
      ({ st with thread_counter := u32sub1 (u32sub1 c1) }, .error .spawnErr)

/-- The terminal action of a spawned worker body (the lambda wrapped around
the worker in spawn_thread): when the body returns, thread_counter_ is
decremented once.  A body returns at most once, and only threads actually
recorded in the registry can reach this event, so it is a no-op otherwise. -/
def finish_thread (st : TMState) (tid : Nat) : TMState :=
  match alookup st.threads tid with
  | some t =>
      if t.finished then st
      else { st with thread_counter := u32sub1 st.thread_counter,
                     threads := ainsert st.threads tid { t with finished := true } }
  | none => st

/-- Embedding of ThreadManager::join (ThreadManager.hpp, lines 162-170):
joins every recorded thread (each still-unfinished body runs to completion,
performing its terminal decrement) and then clears the map. -/
def join (st : TMState) : TMState :=
  let st2 := st.threads.foldl (fun acc p => finish_thread acc p.1) st
  { st2 with threads := [] }

/-- Embedding of ThreadManager::request_stop (ThreadManager.hpp, lines
132-144): throws std::invalid_argument when the id is not in the map,
otherwise requests a stop on that thread's stop source, returning whether the
request was newly made. -/
def request_stop (st : TMState) (tid : Nat) : TMState × Except TMErr Bool :=
  match alookup st.threads tid with
  | none => (st, .error .lookupErr)
  | some t =>
      ({ st with threads := ainsert st.threads tid { t with stopRequested := true } },
        .ok (!t.stopRequested))

/-- Embedding of ThreadManager::stop_requested (ThreadManager.hpp, lines
147-159): throws std::invalid_argument when the id is not in the map,
otherwise reads the thread's stop-token state. -/
def stop_requested (st : TMState) (tid : Nat) : TMState × Except TMErr Bool :=
  match alookup st.threads tid with
  | none => (st, .error .lookupErr)
  | some t => (st, .ok t.stopRequested)

/-- Embedding of ThreadManager::request_stop_all (ThreadManager.hpp, lines
120-123): requests a stop on the registry-wide stop source; the local
per-thread tokens are untouched. -/
def request_stop_all (st : TMState) : TMState × Bool :=
  ({ st with globalStop := true }, !st.globalStop)

/-- Embedding of ThreadManager::stop_requested_all (ThreadManager.hpp, lines
126-129). -/
def stop_requested_all (st : TMState) : Bool := st.globalStop

/-- Embedding of ThreadManager::reserve (ThreadManager.hpp, lines 107-111):
rehashing only resizes the map's bucket storage; the observable registry
state (counter, entries, stop flags) is unchanged. -/
def reserve (st : TMState) (_limit : Nat) : TMState := st

/-- One registry event: a public mutating operation or a worker body
finishing. -/
inductive TMOp where
  | spawn (tid : Nat) (outcome : SpawnOutcome)
  | finish (tid : Nat)
  | joinAll
  | requestStop (tid : Nat)
  | requestStopAll
  | reserveOp (n : Nat)
deriving DecidableEq, Repr

/-- State transition of one registry event. -/
def applyOp (st : TMState) : TMOp → TMState
  | .spawn tid outcome => (spawn_thread st tid outcome).1
  | .finish tid => finish_thread st tid
  | .joinAll => join st
  | .requestStop tid => (request_stop st tid).1
  | .requestStopAll => (request_stop_all st).1
  | .reserveOp n => reserve st n

/-- The registry state reached by running a sequence of events on a
default-constructed ThreadManager. -/
def execOps (ops : List TMOp) : TMState := ops.foldl applyOp initTM

end ThreadManager

namespace SignalHandler

/-- The sigaction flag SA_SIGINFO (Linux value 4), ORed into sa_flags by both
constructors. -/
def SA_SIGINFO : Int := 4

/-- One signal's currently installed disposition:
`ours flags` - this library's handler_callback installed with the given
sa_flags value; `prev code` - some pre-existing disposition, abstract;
`garbage` - the contents of the uninitialized old_sa_struct that the
constructors store when sigaction fails and throw_sig_error is false. -/
inductive Dispo where
  | ours (flags : Int)
  | prev (code : Nat)
  | garbage
deriving DecidableEq, Repr

/-- Process-wide OS signal state touched by the constructors: the calling
thread's signal mask (a set of blocked signal numbers, represented as a list
read through membership) and the per-signal dispositions (an assoc list of
updates over the process's initial dispositions; a signal absent from the
list still has its initial disposition). -/
structure OSState where
  blocked : List Int
  dispo : List (Int × Dispo)
deriving DecidableEq, Repr

/-- Process state relevant to SignalHandler: the singleton flag
instance_exists_, the static category words sig_flags_, and the OS state. -/
structure SHState where
  instance_exists : Bool
  sig_flags : SigFlags
  os : OSState
deriving DecidableEq, Repr

/-- The per-instance members a successful construction produces: sigmask_
(the set of registered signals) and old_handlers_ (the saved previous
dispositions, keyed by signal). -/
structure SHInstance where
  sigmask : List Int
  old_handlers : List (Int × Dispo)
deriving DecidableEq, Repr

/-- The exceptions a constructor can throw: std::logic_error (singleton
violation), std::invalid_argument (carrying the offending signal number), and
std::system_error. -/
inductive SHErr where
  | logicErr
  | invalidArg (sig : Int)
  | systemErr
deriving DecidableEq, Repr

/-- Oracle for the environmental syscall failures a construction can meet:
whether pthread_sigmask(SIG_BLOCK, ...) fails, and for each signal whether
sigaction(signal, ...) fails. -/
structure Syscalls where
  mask_block_fails : Bool
  sigaction_fails : Int → Bool

/-- Read a signal's current disposition (a signal never touched keeps its
initial disposition, abstracted as `prev 0` relative to the update list). -/
def getDispo (os : OSState) (s : Int) : Dispo :=
  (alookup os.dispo s).getD (.prev 0)

/-- Install a disposition for a signal (the effect of a successful
sigaction(s, new, old) call). -/
def setDispo (os : OSState) (s : Int) (d : Dispo) : OSState :=
  { os with dispo := ainsert os.dispo s d }

/-- Effect of pthread_sigmask(SIG_BLOCK, sigs): the set union, keeping the
existing blocked signals and adding the new ones. -/
def maskUnion (blocked sigs : List Int) : List Int :=
  blocked ++ sigs.filter (fun s => !(blocked.contains s))

/-- Effect of pthread_sigmask(SIG_UNBLOCK, sigs): removes the given signals
from the blocked set. -/
def maskRemove (blocked sigs : List Int) : List Int :=
  blocked.filter (fun b => !(sigs.contains b))

/-- Embedding of SignalHandler::restore_actions (SignalHandler.hpp, lines
267-276): reinstalls every saved old disposition, then unblocks the
registered signal set. -/
def restore_actions (os : OSState) (inst : SHInstance) : OSState :=
  let os2 := inst.old_handlers.foldl (fun acc p => setDispo acc p.1 p.2) os
  { os2 with blocked := maskRemove os2.blocked inst.sigmask }

/-- The per-signal installation loop of the first constructor
(SignalHandler.cpp, lines 46-64): for each signal in order, sigaction installs
handler_callback with sa_flags = flags | SA_SIGINFO and saves the previous
disposition into old_handlers_.  If sigaction fails and throw_sig_error is
set, everything installed so far is restored, the signal set unblocked, and a
system_error is thrown; if it fails and throw_sig_error is not set, the
(uninitialized) old_sa_struct is still stored and the loop continues. -/
def installLoop (sys : Syscalls) (flags : Int) (throw_sig_error : Bool)
    (sigmask : List Int) :
    OSState → List Int → List (Int × Dispo) →
    OSState × Except SHErr (List (Int × Dispo))
  | os, [], acc => (os, .ok acc)
  | os, s :: rest, acc =>
      if sys.sigaction_fails s then
        if throw_sig_error then
          (restore_actions os ⟨sigmask, acc⟩, .error .systemErr)
        else
          installLoop sys flags throw_sig_error sigmask os rest
            (ainsert acc s .garbage)
      else
        installLoop sys flags throw_sig_error sigmask
          (setDispo os s (.ours (Int.lor flags SA_SIGINFO))) rest
          (ainsert acc s (getDispo os s))

/-- The per-signal installation loop of the second constructor
(SignalHandler.cpp, lines 117-135): identical to installLoop except that each
pair carries its own flags value. -/
def installLoopPairs (sys : Syscalls) (throw_sig_error : Bool)
    (sigmask : List Int) :
    OSState → List (Int × Int) → List (Int × Dispo) →
    OSState × Except SHErr (List (Int × Dispo))
  | os, [], acc => (os, .ok acc)
  | os, (s, flags) :: rest, acc =>
      if sys.sigaction_fails s then
        if throw_sig_error then
          (restore_actions os ⟨sigmask, acc⟩, .error .systemErr)
        else
          installLoopPairs sys throw_sig_error sigmask os rest
            (ainsert acc s .garbage)
      else
        installLoopPairs sys throw_sig_error sigmask
          (setDispo os s (.ours (Int.lor flags SA_SIGINFO))) rest
          (ainsert acc s (getDispo os s))

/-- Embedding of the first constructor, SignalHandler::SignalHandler(
initializer_list of signals, flags, throw_sig_error) (SignalHandler.cpp,
lines 6-76).  In order: atomic test-and-set of the singleton flag (throwing
logic_error if it was already set); validation of every signal number
(throwing invalid_argument at the first illegal one, after clearing the
flag, before any OS state is touched); building sigmask_ from the signals;
pthread_sigmask(SIG_BLOCK) (on failure: SIG_UNBLOCK the set, clear the flag,
throw system_error); the per-signal installation loop; then zeroing the three
category words and starting the dispatcher thread (the dispatcher only
adjusts its own thread-local mask and sleeps, so it changes no modelled
state). -/
def ctor_list (sys : Syscalls) (st : SHState) (signal_list : List Int)
    (flags : Int) (throw_sig_error : Bool) :
    SHState × Except SHErr SHInstance :=
  if st.instance_exists then (st, .error .logicErr)
  else
    let st1 : SHState := { st with instance_exists := true }
    match signal_list.find? (fun s => decide (s ≤ 0) || decide (NSIG ≤ s)) with
    | some s => ({ st1 with instance_exists := false }, .error (.invalidArg s))
    | none =>
      let sigmask := signal_list
      if sys.mask_block_fails then
        ({ st1 with
            os := { st1.os with blocked := maskRemove st1.os.blocked sigmask },
            instance_exists := false }, .error .systemErr)
      else
        let st2 : SHState :=
          { st1 with os := { st1.os with blocked := maskUnion st1.os.blocked sigmask } }
        match installLoop sys flags throw_sig_error sigmask st2.os signal_list [] with
        | (os2, .error e) =>
            ({ st2 with os := os2, instance_exists := false }, .error e)
        | (os2, .ok oldh) =>
            ({ st2 with os := os2, sig_flags := ⟨0, 0, 0⟩ }, .ok ⟨sigmask, oldh⟩)

/-- Embedding of the second constructor, SignalHandler::SignalHandler(
initializer_list of (signal, flags) pairs, throw_sig_error)
(SignalHandler.cpp, lines 78-147): the same steps as ctor_list, with each
pair's own flags used at its installation. -/
def ctor_pairs (sys : Syscalls) (st : SHState)
    (initialiser_list : List (Int × Int)) (throw_sig_error : Bool) :
    SHState × Except SHErr SHInstance :=
  if st.instance_exists then (st, .error .logicErr)
  else
    let st1 : SHState := { st with instance_exists := true }
    match initialiser_list.find?
        (fun p => decide (p.1 ≤ 0) || decide (NSIG ≤ p.1)) with
    | some p => ({ st1 with instance_exists := false }, .error (.invalidArg p.1))
    | none =>
      let sigmask := initialiser_list.map Prod.fst
      if sys.mask_block_fails then
        ({ st1 with
            os := { st1.os with blocked := maskRemove st1.os.blocked sigmask },
            instance_exists := false }, .error .systemErr)
      else
        let st2 : SHState :=
          { st1 with os := { st1.os with blocked := maskUnion st1.os.blocked sigmask } }
        match installLoopPairs sys throw_sig_error sigmask st2.os initialiser_list [] with
        | (os2, .error e) =>
            ({ st2 with os := os2, instance_exists := false }, .error e)
        | (os2, .ok oldh) =>
            ({ st2 with os := os2, sig_flags := ⟨0, 0, 0⟩ }, .ok ⟨sigmask, oldh⟩)

/-- Embedding of the destructor SignalHandler::~SignalHandler
(SignalHandler.cpp, lines 174-197): restore_actions, stop and join the
dispatcher (no modelled state change, and any join failure is swallowed),
zero the three category words, release the singleton slot. -/
def dtor (st : SHState) (inst : SHInstance) : SHState :=
  { st with os := restore_actions st.os inst,
            sig_flags := ⟨0, 0, 0⟩,
            instance_exists := false }

end SignalHandler

namespace SignalHandler

/-- Claim C1: the claim states pop_signal(n) returns true iff n's own bit had
been set, and false on repeated calls regardless of other signals' bits in
the same category word.  The code instead converts fetch_and's return value -
the whole previous word - to bool.  Concretely: after a single delivery of
signal 2 (and none of signal 1), signal 1's bit is clear (test_signal(1) is
false), yet pop_signal(1) returns true, and a second pop_signal(1) returns
true again because signal 2's bit is still set. -/
theorem pop_signal_returns_whole_word :
    test_signal (handler_callback ⟨0, 0, 0⟩ 2) 1 = false ∧
    (pop_signal (handler_callback ⟨0, 0, 0⟩ 2) 1).2 = true ∧
    (pop_signal (pop_signal (handler_callback ⟨0, 0, 0⟩ 2) 1).1 1).2 = true := by
  decide

/-- Claim C2: delivery of a signal k in 1..31 ORs exactly bit k-1 into the OS
word (RT and reserved words untouched); delivery of k in 32..63 ORs exactly
bit k-32 into the RT word; and for k <= 0 or k >= NSIG delivery sets no bit
while test_signal(k) and pop_signal(k) return false without touching the
words. -/
theorem signal_delivery_bit_placement (w : SigFlags) (k : Int) :
    (1 ≤ k ∧ k ≤ 31 →
      handler_callback w k = { w with OS_sigs := w.OS_sigs ||| 2 ^ (k - 1).toNat }) ∧
    (32 ≤ k ∧ k ≤ 63 →
      handler_callback w k = { w with RT_sigs := w.RT_sigs ||| 2 ^ (k - 32).toNat }) ∧
    (k ≤ 0 ∨ NSIG ≤ k →
      handler_callback w k = w ∧ test_signal w k = false ∧
      pop_signal w k = (w, false)) := by
  refine ⟨?_, ?_, ?_⟩
  · rintro ⟨h1, h2⟩
    have hb : signal_bitmask k = 2 ^ (k - 1).toNat := by
      unfold signal_bitmask NSIG
      rw [if_neg (by omega), if_pos (by omega)]
    unfold handler_callback
    rw [if_pos (by omega : k < 32), hb]
  · rintro ⟨h1, h2⟩
    have hb : signal_bitmask k = 2 ^ (k - 32).toNat := by
      unfold signal_bitmask NSIG
      rw [if_neg (by omega), if_neg (by omega), if_pos (by omega)]
    unfold handler_callback
    rw [if_neg (by omega : ¬ k < 32), if_pos (by omega : k < 64), hb]
  · intro h
    have hb : signal_bitmask k = 0 := by
      unfold signal_bitmask
      rw [if_pos h]
    refine ⟨?_, ?_, ?_⟩
    · unfold handler_callback
      rw [hb]
      split_ifs <;> simp
    · unfold test_signal
      rw [if_pos h]
    · unfold pop_signal
      rw [if_pos h]

/-- Claim C2 witness: deliveries of signals 5 and 40 set exactly bit 4 of the
OS word and bit 8 of the RT word, and signal 70 (beyond NSIG) is a no-op for
delivery and both queries. -/
theorem signal_delivery_bit_placement_witness :
    handler_callback ⟨0, 0, 0⟩ 5 =
      { (⟨0, 0, 0⟩ : SigFlags) with OS_sigs := 0 ||| 2 ^ ((5 : Int) - 1).toNat } ∧
    handler_callback ⟨0, 0, 0⟩ 40 =
      { (⟨0, 0, 0⟩ : SigFlags) with RT_sigs := 0 ||| 2 ^ ((40 : Int) - 32).toNat } ∧
    (handler_callback ⟨0, 0, 0⟩ 70 = ⟨0, 0, 0⟩ ∧
      test_signal ⟨0, 0, 0⟩ 70 = false ∧
      pop_signal ⟨0, 0, 0⟩ 70 = (⟨0, 0, 0⟩, false)) :=
  ⟨(signal_delivery_bit_placement ⟨0, 0, 0⟩ 5).1 ⟨by decide, by decide⟩,
   (signal_delivery_bit_placement ⟨0, 0, 0⟩ 40).2.1 ⟨by decide, by decide⟩,
   (signal_delivery_bit_placement ⟨0, 0, 0⟩ 70).2.2 (Or.inr (by decide))⟩

/-- Claim C7: pop_all_signals fills the out-parameter with exactly the three
category words, returns true iff any bit in any of the three words was set,
and afterwards test_all_signals reports all three words zero and returns
false. -/
theorem pop_all_signals_round_trip (w : SigFlags) :
    (pop_all_signals w).2.1 = ⟨w.OS_sigs, w.RT_sigs, w.reserved⟩ ∧
    ((pop_all_signals w).2.2 = true ↔
      (w.OS_sigs ≠ 0 ∨ w.RT_sigs ≠ 0 ∨ w.reserved ≠ 0)) ∧
    test_all_signals (pop_all_signals w).1 = (⟨0, 0, 0⟩, false) := by
  unfold pop_all_signals test_all_signals
  refine ⟨rfl, ?_, rfl⟩
  simp only [Bool.or_eq_true, decide_eq_true_eq]
  tauto

end SignalHandler

theorem alookup_ainsert {κ α : Type} [DecidableEq κ] (l : List (κ × α))
    (k : κ) (v : α) (key : κ) :
    alookup (ainsert l k v) key = if k = key then some v else alookup l key := by
  induction l with
  | nil => simp [ainsert, alookup]
  | cons p rest ih =>
      obtain ⟨k', w⟩ := p
      by_cases hk : k' = k
      · subst hk
        by_cases hkey : k' = key <;> simp [ainsert, alookup, hkey]
      · by_cases hkey : k' = key
        · subst hkey
          have hne : ¬ k = k' := fun h => hk h.symm
          simp [ainsert, alookup, hk, hne]
        · simp [ainsert, alookup, hk, hkey, ih]

namespace ThreadManager

theorem applyOp_preserves_unrequested (st : TMState) (tid : Nat) (o : TMOp)
    (ho : o ≠ TMOp.requestStop tid)
    (h : ∀ t, alookup st.threads tid = some t → t.stopRequested = false) :
    ∀ t, alookup (applyOp st o).threads tid = some t → t.stopRequested = false := by
  cases o with
  | spawn tid' outcome =>
      cases outcome with
      | ok =>
          intro t ht
          simp only [applyOp, spawn_thread, alookup_ainsert] at ht
          by_cases he : tid' = tid
          · rw [if_pos he] at ht
            cases ht
            rfl
          · rw [if_neg he] at ht
            exact h t ht
      | createFail =>
          intro t ht
          simp only [applyOp, spawn_thread] at ht
          exact h t ht
      | recordFail =>
          intro t ht
          simp only [applyOp, spawn_thread] at ht
          exact h t ht
  | finish tid' =>
      intro t ht
      simp only [applyOp, finish_thread] at ht
      split at ht
      next t' hl =>
          split at ht
          next hf => exact h t ht
          next hf =>
            simp only [alookup_ainsert] at ht
            by_cases he : tid' = tid
            · rw [if_pos he] at ht
              cases ht
              subst he
              exact h t' hl
            · rw [if_neg he] at ht
              exact h t ht
      next hl => exact h t ht
  | joinAll =>
      intro t ht
      simp [applyOp, join, alookup] at ht
  | requestStop tid' =>
      have hne : tid' ≠ tid := fun he => ho (by rw [he])
      intro t ht
      simp only [applyOp, request_stop] at ht
      split at ht
      next hl => exact h t ht
      next t' hl =>
          simp only [alookup_ainsert] at ht
          rw [if_neg hne] at ht
          exact h t ht
  | requestStopAll =>
      intro t ht
      simp only [applyOp, request_stop_all] at ht
      exact h t ht
  | reserveOp n =>
      intro t ht
      simp only [applyOp, reserve] at ht
      exact h t ht

theorem foldl_preserves_unrequested (tid : Nat) :
    ∀ (ops : List TMOp) (st : TMState),
      (∀ t, alookup st.threads tid = some t → t.stopRequested = false) →
      (∀ o ∈ ops, o ≠ TMOp.requestStop tid) →
      ∀ t, alookup (ops.foldl applyOp st).threads tid = some t →
        t.stopRequested = false := by
  intro ops
  induction ops with
  | nil => intro st h _; exact h
  | cons o rest ih =>
      intro st h hops
      exact ih (applyOp st o)
        (applyOp_preserves_unrequested st tid o (hops o (List.mem_cons_self o rest)) h)
        (fun o' ho' => hops o' (List.mem_cons_of_mem o ho'))

/-- Claim C3 counterexample: the claim quantifies over every observable
registry state, but through the double-decrementing failed-spawn path
(spawn ok; that thread finishes; a spawn whose recording fails) the counter
wraps to 2 ^ 32 - 1, and in that reachable state all_running() returns true
(the source compares with >=) while alive_threads() differs from
total_threads(). -/
theorem all_running_geq_counterexample :
    all_running (execOps [.spawn 0 .ok, .finish 0, .spawn 1 .recordFail]) = true ∧
    alive_threads (execOps [.spawn 0 .ok, .finish 0, .spawn 1 .recordFail]) ≠
      total_threads (execOps [.spawn 0 .ok, .finish 0, .spawn 1 .recordFail]) := by
  decide

/-- Claim C3 as amended: in every registry state satisfying the documented
data-model invariant alive_threads() <= total_threads() (every state
reachable without a spawn that fails at the recording step), all_running()
returns true iff alive_threads() equals total_threads() and total_threads()
is positive; and when some threads have finished while at least one is still
running, all_running() is false while any_running() is true. -/
theorem all_running_iff (st : TMState)
    (hinv : alive_threads st ≤ total_threads st) :
    (all_running st = true ↔
      (alive_threads st = total_threads st ∧ 0 < total_threads st)) ∧
    (alive_threads st < total_threads st → 0 < alive_threads st →
      all_running st = false ∧ any_running st = true) := by
  unfold alive_threads total_threads at hinv
  refine ⟨?_, fun h1 h2 => ⟨?_, ?_⟩⟩
  · simp only [all_running, alive_threads, total_threads, Bool.and_eq_true,
      decide_eq_true_eq]
    omega
  · have hlt : ¬ (st.threads.length ≤ st.thread_counter) := by
      unfold alive_threads total_threads at h1
      omega
    simp [all_running, hlt]
  · unfold alive_threads at h2
    simp only [any_running, decide_eq_true_eq]
    omega

/-- Claim C3 witness: a registry with one finished and one still-running
thread satisfies the invariant, and there all_running() is false while
any_running() is true. -/
theorem all_running_iff_witness :
    all_running ⟨1, [(0, ⟨false, false⟩), (1, ⟨false, true⟩)], false⟩ = false ∧
    any_running ⟨1, [(0, ⟨false, false⟩), (1, ⟨false, true⟩)], false⟩ = true :=
  (all_running_iff ⟨1, [(0, ⟨false, false⟩), (1, ⟨false, true⟩)], false⟩
    (by decide)).2 (by decide) (by decide)

/-- Claim C4: the claim requires a failed spawn_thread to leave the
observable registry state exactly as before the call.  When the jthread
starts but recording it in the map throws, the started thread is joined
during unwinding and its body performs its terminal fetch_sub, after which
the catch block performs a second fetch_sub: from a registry with one running
thread (alive_threads 1, any_running true), the failed call propagates the
failure but leaves alive_threads 0 and any_running false. -/
theorem spawn_record_fail_not_rolled_back :
    (spawn_thread (execOps [.spawn 5 .ok]) 7 .recordFail).2 = .error .spawnErr ∧
    alive_threads (execOps [.spawn 5 .ok]) = 1 ∧
    any_running (execOps [.spawn 5 .ok]) = true ∧
    alive_threads (spawn_thread (execOps [.spawn 5 .ok]) 7 .recordFail).1 = 0 ∧
    any_running (spawn_thread (execOps [.spawn 5 .ok]) 7 .recordFail).1 = false :=
  ⟨rfl, by decide, by decide, by decide, by decide⟩

/-- Claim C9: the claim requires alive_threads() <= total_threads() in every
reachable state.  A single spawn_thread on a fresh registry whose recording
step throws decrements the uint32 counter twice after the single increment,
wrapping it to 4294967295 while the table stays empty, so alive_threads()
exceeds total_threads(). -/
theorem alive_exceeds_total_after_record_fail :
    alive_threads (execOps [.spawn 0 .recordFail]) = 4294967295 ∧
    total_threads (execOps [.spawn 0 .recordFail]) = 0 ∧
    ¬ (alive_threads (execOps [.spawn 0 .recordFail]) ≤
        total_threads (execOps [.spawn 0 .recordFail])) := by
  decide

/-- Claim C8: request_stop and stop_requested on an identity not currently in
the registry fail with the lookup error and leave the registry unchanged; on
a registered identity, stop_requested reports false in any state reached
without a request_stop for that identity, and reports true immediately after
request_stop for it returns. -/
theorem request_stop_contract :
    (∀ (st : TMState) (tid : Nat), alookup st.threads tid = none →
      request_stop st tid = (st, .error .lookupErr) ∧
      stop_requested st tid = (st, .error .lookupErr)) ∧
    (∀ (ops : List TMOp) (tid : Nat) (t : ThreadRec),
      (∀ o ∈ ops, o ≠ TMOp.requestStop tid) →
      alookup (execOps ops).threads tid = some t →
      (stop_requested (execOps ops) tid).2 = .ok false) ∧
    (∀ (st : TMState) (tid : Nat) (t : ThreadRec),
      alookup st.threads tid = some t →
      (stop_requested (request_stop st tid).1 tid).2 = .ok true) := by
  refine ⟨?_, ?_, ?_⟩
  · intro st tid h
    constructor
    · unfold request_stop
      rw [h]
    · unfold stop_requested
      rw [h]
  · intro ops tid t hops hsome
    have hflag : t.stopRequested = false :=
      foldl_preserves_unrequested tid ops initTM
        (by intro t' ht'; simp [initTM, alookup] at ht') hops t hsome
    unfold stop_requested
    rw [hsome]
    exact congrArg Except.ok hflag
  · intro st tid t hsome
    have h1 : (request_stop st tid).1 =
        { st with threads := ainsert st.threads tid { t with stopRequested := true } } := by
      unfold request_stop
      rw [hsome]
    rw [h1]
    unfold stop_requested
    simp [alookup_ainsert]

/-- Claim C8 witness: on a fresh registry the unknown id 9 fails with the
lookup error; after spawning thread 3, stop_requested(3) is false, and after
request_stop(3) it is true. -/
theorem request_stop_contract_witness :
    request_stop initTM 9 = (initTM, .error .lookupErr) ∧
    (stop_requested (execOps [.spawn 3 .ok]) 3).2 = .ok false ∧
    (stop_requested (request_stop (execOps [.spawn 3 .ok]) 3).1 3).2 = .ok true :=
  ⟨(request_stop_contract.1 initTM 9 (by decide)).1,
   request_stop_contract.2.1 [.spawn 3 .ok] 3 ⟨false, false⟩ (by decide) (by decide),
   request_stop_contract.2.2 (execOps [.spawn 3 .ok]) 3 ⟨false, false⟩ (by decide)⟩

end ThreadManager

namespace SignalHandler

theorem installLoopPairs_map (sys : Syscalls) (flags : Int) (b : Bool)
    (sigmask : List Int) :
    ∀ (rest : List Int) (os : OSState) (acc : List (Int × Dispo)),
      installLoopPairs sys b sigmask os (rest.map (fun s => (s, flags))) acc =
        installLoop sys flags b sigmask os rest acc := by
  intro rest
  induction rest with
  | nil => intro os acc; rfl
  | cons s rest ih =>
      intro os acc
      by_cases hs : sys.sigaction_fails s = true
      · cases b with
        | true => simp [installLoop, installLoopPairs, hs]
        | false => simp [installLoop, installLoopPairs, hs, ih]
      · simp [installLoop, installLoopPairs, hs, ih]

theorem find?_pair_map (flags : Int) :
    ∀ sigs : List Int,
      (sigs.map (fun s => (s, flags))).find?
          (fun p => decide (p.1 ≤ 0) || decide (NSIG ≤ p.1)) =
        (sigs.find? (fun s => decide (s ≤ 0) || decide (NSIG ≤ s))).map
          (fun s => (s, flags)) := by
  intro sigs
  induction sigs with
  | nil => rfl
  | cons s rest ih =>
      by_cases hs : (decide (s ≤ 0) || decide (NSIG ≤ s)) = true
      · rw [List.map_cons,
          @List.find?_cons_of_pos _ (fun p => decide (p.1 ≤ 0) || decide (NSIG ≤ p.1))
            (s, flags) (rest.map (fun x => (x, flags))) hs,
          @List.find?_cons_of_pos _ (fun x => decide (x ≤ 0) || decide (NSIG ≤ x))
            s rest hs]
        rfl
      · rw [List.map_cons,
          @List.find?_cons_of_neg _ (fun p => decide (p.1 ≤ 0) || decide (NSIG ≤ p.1))
            (s, flags) (rest.map (fun x => (x, flags))) hs,
          @List.find?_cons_of_neg _ (fun x => decide (x ≤ 0) || decide (NSIG ≤ x))
            s rest hs, ih]

theorem installLoop_all_ok (sys : Syscalls) (flags : Int) (b : Bool)
    (sigmask : List Int) :
    ∀ (rest : List Int) (os : OSState) (acc : List (Int × Dispo)),
      (∀ s ∈ rest, sys.sigaction_fails s = false) →
      ∃ os2 oldh, installLoop sys flags b sigmask os rest acc = (os2, .ok oldh) := by
  intro rest
  induction rest with
  | nil =>
      intro os acc _
      exact ⟨os, acc, rfl⟩
  | cons s rest ih =>
      intro os acc hok
      have hs : sys.sigaction_fails s = false := hok s (List.mem_cons_self s rest)
      have hrest : ∀ x ∈ rest, sys.sigaction_fails x = false :=
        fun x hx => hok x (List.mem_cons_of_mem s hx)
      simp only [installLoop, hs]
      rw [if_neg (by simp)]
      exact ih _ _ hrest

theorem ctor_list_ok (sys : Syscalls) (st : SHState) (sigs : List Int)
    (flags : Int) (b : Bool)
    (hfree : st.instance_exists = false)
    (hleg : ∀ s ∈ sigs, 0 < s ∧ s < NSIG)
    (hmb : sys.mask_block_fails = false)
    (hsa : ∀ s ∈ sigs, sys.sigaction_fails s = false) :
    ∃ st2 inst2, ctor_list sys st sigs flags b = (st2, .ok inst2) := by
  have hfind : sigs.find? (fun s => decide (s ≤ 0) || decide (NSIG ≤ s)) = none := by
    rw [List.find?_eq_none]
    intro x hx
    have hx2 := hleg x hx
    simp only [Bool.or_eq_true, decide_eq_true_eq, not_or, NSIG] at *
    omega
  obtain ⟨os2, oldh, hloop⟩ :=
    installLoop_all_ok sys flags b sigs sigs
      { blocked := maskUnion st.os.blocked sigs, dispo := st.os.dispo } [] hsa
  refine ⟨⟨true, ⟨0, 0, 0⟩, os2⟩, ⟨sigs, oldh⟩, ?_⟩
  simp only [ctor_list]
  rw [if_neg (show ¬ (st.instance_exists = true) by simp [hfree])]
  rw [hfind]
  rw [if_neg (show ¬ (sys.mask_block_fails = true) by simp [hmb])]
  rw [hloop]

/-- Claim C10: the two construction forms are equivalent.  For every starting
process state, signal list, shared flags value, failure-policy flag and
syscall-failure pattern, constructing from the signal list with the shared
flags behaves exactly like constructing from the pair list that pairs every
signal with those flags: same resulting process state (singleton flag,
category words, signal mask, dispositions), same error outcome, and same
instance members. -/
theorem ctor_forms_equivalent (sys : Syscalls) (st : SHState) (sigs : List Int)
    (flags : Int) (b : Bool) :
    ctor_pairs sys st (sigs.map (fun s => (s, flags))) b =
      ctor_list sys st sigs flags b := by
  by_cases hi : st.instance_exists = true
  · simp [ctor_pairs, ctor_list, hi]
  · have hm : (sigs.map (fun s => (s, flags))).map Prod.fst = sigs := by
      induction sigs with
      | nil => rfl
      | cons a t iht => simp only [List.map_cons, iht]
    simp only [ctor_pairs, ctor_list]
    rw [if_neg hi, if_neg hi]
    rw [find?_pair_map, hm]
    cases hf : sigs.find? (fun s => decide (s ≤ 0) || decide (NSIG ≤ s)) with
    | some s0 => rfl
    | none =>
        by_cases hmb : sys.mask_block_fails = true
        · rw [if_pos hmb, if_pos hmb]
          rfl
        · rw [if_neg hmb, if_neg hmb]
          rw [installLoopPairs_map]
          rfl

/-- Claim C5: while an instance is alive (the singleton flag is set) both
construction forms fail with the lifecycle error and return the process state
completely unchanged; destruction releases the singleton slot; and a
construction attempted after destruction, with legal signals and no syscall
failures, succeeds. -/
theorem singleton_enforced (sys sys2 : Syscalls) (st : SHState)
    (sigs sigs2 : List Int) (plist : List (Int × Int)) (flags flags2 : Int)
    (b b2 : Bool) (inst : SHInstance)
    (h : st.instance_exists = true)
    (hleg : ∀ s ∈ sigs2, 0 < s ∧ s < NSIG)
    (hmb : sys2.mask_block_fails = false)
    (hsa : ∀ s ∈ sigs2, sys2.sigaction_fails s = false) :
    ctor_list sys st sigs flags b = (st, .error .logicErr) ∧
    ctor_pairs sys st plist b = (st, .error .logicErr) ∧
    (dtor st inst).instance_exists = false ∧
    (∃ st2 inst2, ctor_list sys2 (dtor st inst) sigs2 flags2 b2 =
      (st2, .ok inst2)) := by
  refine ⟨?_, ?_, rfl, ?_⟩
  · simp only [ctor_list]
    rw [if_pos h]
  · simp only [ctor_pairs]
    rw [if_pos h]
  · exact ctor_list_ok sys2 (dtor st inst) sigs2 flags2 b2 rfl hleg hmb hsa

/-- Claim C5 witness: with the singleton flag set, construction fails with
the lifecycle error leaving the state unchanged; after destruction the slot
is free and a legal construction succeeds. -/
theorem singleton_enforced_witness :
    ctor_list ⟨false, fun _ => false⟩ ⟨true, ⟨0, 0, 0⟩, ⟨[], []⟩⟩ [1] 0 true =
      (⟨true, ⟨0, 0, 0⟩, ⟨[], []⟩⟩, .error .logicErr) ∧
    ctor_pairs ⟨false, fun _ => false⟩ ⟨true, ⟨0, 0, 0⟩, ⟨[], []⟩⟩ [(1, 0)] true =
      (⟨true, ⟨0, 0, 0⟩, ⟨[], []⟩⟩, .error .logicErr) ∧
    (dtor ⟨true, ⟨0, 0, 0⟩, ⟨[], []⟩⟩ ⟨[], []⟩).instance_exists = false ∧
    (∃ st2 inst2, ctor_list ⟨false, fun _ => false⟩
        (dtor ⟨true, ⟨0, 0, 0⟩, ⟨[], []⟩⟩ ⟨[], []⟩) [2] 0 true =
      (st2, .ok inst2)) :=
  singleton_enforced ⟨false, fun _ => false⟩ ⟨false, fun _ => false⟩
    ⟨true, ⟨0, 0, 0⟩, ⟨[], []⟩⟩ [1] [2] [(1, 0)] 0 0 true true ⟨[], []⟩
    rfl (by decide) rfl (by decide)

theorem installLoopPairs_all_ok (sys : Syscalls) (b : Bool) (sigmask : List Int) :
    ∀ (rest : List (Int × Int)) (os : OSState) (acc : List (Int × Dispo)),
      (∀ p ∈ rest, sys.sigaction_fails p.1 = false) →
      ∃ os2 oldh, installLoopPairs sys b sigmask os rest acc = (os2, .ok oldh) := by
  intro rest
  induction rest with
  | nil =>
      intro os acc _
      exact ⟨os, acc, rfl⟩
  | cons p rest ih =>
      intro os acc hok
      obtain ⟨s, flags⟩ := p
      have hs : sys.sigaction_fails s = false := hok (s, flags) (List.mem_cons_self _ _)
      have hrest : ∀ x ∈ rest, sys.sigaction_fails x.1 = false :=
        fun x hx => hok x (List.mem_cons_of_mem _ hx)
      simp only [installLoopPairs, hs]
      rw [if_neg (by simp)]
      exact ih _ _ hrest

theorem ctor_pairs_ok (sys : Syscalls) (st : SHState)
    (plist : List (Int × Int)) (b : Bool)
    (hfree : st.instance_exists = false)
    (hleg : ∀ p ∈ plist, 0 < p.1 ∧ p.1 < NSIG)
    (hmb : sys.mask_block_fails = false)
    (hsa : ∀ p ∈ plist, sys.sigaction_fails p.1 = false) :
    ∃ st2 inst2, ctor_pairs sys st plist b = (st2, .ok inst2) := by
  have hfind : plist.find? (fun p => decide (p.1 ≤ 0) || decide (NSIG ≤ p.1)) = none := by
    rw [List.find?_eq_none]
    intro x hx
    have hx2 := hleg x hx
    simp only [Bool.or_eq_true, decide_eq_true_eq, not_or, NSIG] at *
    omega
  obtain ⟨os2, oldh, hloop⟩ :=
    installLoopPairs_all_ok sys b (plist.map Prod.fst) plist
      { blocked := maskUnion st.os.blocked (plist.map Prod.fst),
        dispo := st.os.dispo } [] hsa
  refine ⟨⟨true, ⟨0, 0, 0⟩, os2⟩, ⟨plist.map Prod.fst, oldh⟩, ?_⟩
  simp only [ctor_pairs]
  rw [if_neg (show ¬ (st.instance_exists = true) by simp [hfree])]
  rw [hfind]
  rw [if_neg (show ¬ (sys.mask_block_fails = true) by simp [hmb])]
  rw [hloop]

/-- Claim C6: with the singleton slot free, a construction in either form
whose signal list contains an illegal number fails with the invalid-argument
error carrying an illegal signal, and returns the process state completely
unchanged (no mask or disposition was touched and the slot is free again);
a subsequent construction with legal signals and no syscall failures
succeeds, again in either form. -/
theorem invalid_signal_rolls_back (sys : Syscalls) (st : SHState)
    (sigs : List Int) (plist : List (Int × Int)) (flags : Int) (b : Bool)
    (hfree : st.instance_exists = false)
    (s0 : Int) (hmem : s0 ∈ sigs) (hbad : s0 ≤ 0 ∨ NSIG ≤ s0)
    (p0 : Int × Int) (hmem2 : p0 ∈ plist) (hbad2 : p0.1 ≤ 0 ∨ NSIG ≤ p0.1) :
    (∃ sbad, (sbad ≤ 0 ∨ NSIG ≤ sbad) ∧
        ctor_list sys st sigs flags b = (st, .error (.invalidArg sbad))) ∧
    (∃ sbad, (sbad ≤ 0 ∨ NSIG ≤ sbad) ∧
        ctor_pairs sys st plist b = (st, .error (.invalidArg sbad))) ∧
    (∀ (sys2 : Syscalls) (sigs2 : List Int) (flags2 : Int) (b2 : Bool),
      (∀ s ∈ sigs2, 0 < s ∧ s < NSIG) →
      sys2.mask_block_fails = false →
      (∀ s ∈ sigs2, sys2.sigaction_fails s = false) →
      ∃ st2 inst2, ctor_list sys2 st sigs2 flags2 b2 = (st2, .ok inst2)) ∧
    (∀ (sys2 : Syscalls) (plist2 : List (Int × Int)) (b2 : Bool),
      (∀ p ∈ plist2, 0 < p.1 ∧ p.1 < NSIG) →
      sys2.mask_block_fails = false →
      (∀ p ∈ plist2, sys2.sigaction_fails p.1 = false) →
      ∃ st2 inst2, ctor_pairs sys2 st plist2 b2 = (st2, .ok inst2)) := by
  refine ⟨?_, ?_, ?_, ?_⟩
  · have hsome : (sigs.find? (fun s => decide (s ≤ 0) || decide (NSIG ≤ s))).isSome := by
      rw [List.find?_isSome]
      refine ⟨s0, hmem, ?_⟩
      simp only [Bool.or_eq_true, decide_eq_true_eq]
      exact hbad
    obtain ⟨sbad, hfind⟩ := Option.isSome_iff_exists.mp hsome
    have hpred := List.find?_some hfind
    refine ⟨sbad, ?_, ?_⟩
    · simpa only [Bool.or_eq_true, decide_eq_true_eq] using hpred
    · obtain ⟨e, fl, osv⟩ := st
      have he : e = false := hfree
      subst he
      simp only [ctor_list]
      rw [if_neg (show ¬ ((false : Bool) = true) by simp)]
      rw [hfind]
  · have hsome : (plist.find?
        (fun p => decide (p.1 ≤ 0) || decide (NSIG ≤ p.1))).isSome := by
      rw [List.find?_isSome]
      refine ⟨p0, hmem2, ?_⟩
      simp only [Bool.or_eq_true, decide_eq_true_eq]
      exact hbad2
    obtain ⟨pbad, hfind⟩ := Option.isSome_iff_exists.mp hsome
    have hpred := List.find?_some hfind
    refine ⟨pbad.1, ?_, ?_⟩
    · simpa only [Bool.or_eq_true, decide_eq_true_eq] using hpred
    · obtain ⟨e, fl, osv⟩ := st
      have he : e = false := hfree
      subst he
      simp only [ctor_pairs]
      rw [if_neg (show ¬ ((false : Bool) = true) by simp)]
      rw [hfind]
  · intro sys2 sigs2 flags2 b2 hleg hmb hsa
    exact ctor_list_ok sys2 st sigs2 flags2 b2 hfree hleg hmb hsa
  · intro sys2 plist2 b2 hleg hmb hsa
    exact ctor_pairs_ok sys2 st plist2 b2 hfree hleg hmb hsa

/-- Claim C6 witness: constructing with signal list [0, 2] (and, in the pair
form, with pair list [(0, 0), (2, 0)]) fails with the invalid-argument error
for signal 0 and leaves the state unchanged; subsequent constructions with
[2] (either form) succeed. -/
theorem invalid_signal_rolls_back_witness :
    (∃ sbad, (sbad ≤ 0 ∨ NSIG ≤ sbad) ∧
        ctor_list ⟨false, fun _ => false⟩ ⟨false, ⟨0, 0, 0⟩, ⟨[], []⟩⟩ [0, 2] 0 true =
          (⟨false, ⟨0, 0, 0⟩, ⟨[], []⟩⟩, .error (.invalidArg sbad))) ∧
    (∃ sbad, (sbad ≤ 0 ∨ NSIG ≤ sbad) ∧
        ctor_pairs ⟨false, fun _ => false⟩ ⟨false, ⟨0, 0, 0⟩, ⟨[], []⟩⟩
            [(0, 0), (2, 0)] true =
          (⟨false, ⟨0, 0, 0⟩, ⟨[], []⟩⟩, .error (.invalidArg sbad))) ∧
    (∀ (sys2 : Syscalls) (sigs2 : List Int) (flags2 : Int) (b2 : Bool),
      (∀ s ∈ sigs2, 0 < s ∧ s < NSIG) →
      sys2.mask_block_fails = false →
      (∀ s ∈ sigs2, sys2.sigaction_fails s = false) →
      ∃ st2 inst2, ctor_list sys2 ⟨false, ⟨0, 0, 0⟩, ⟨[], []⟩⟩ sigs2 flags2 b2 =
        (st2, .ok inst2)) ∧
    (∀ (sys2 : Syscalls) (plist2 : List (Int × Int)) (b2 : Bool),
      (∀ p ∈ plist2, 0 < p.1 ∧ p.1 < NSIG) →
      sys2.mask_block_fails = false →
      (∀ p ∈ plist2, sys2.sigaction_fails p.1 = false) →
      ∃ st2 inst2, ctor_pairs sys2 ⟨false, ⟨0, 0, 0⟩, ⟨[], []⟩⟩ plist2 b2 =
        (st2, .ok inst2)) :=
  invalid_signal_rolls_back ⟨false, fun _ => false⟩ ⟨false, ⟨0, 0, 0⟩, ⟨[], []⟩⟩
    [0, 2] [(0, 0), (2, 0)] 0 true rfl 0 (by decide) (by decide)
    (0, 0) (by decide) (by decide)

end SignalHandler
